import Mathlib

/-!
Shallow embedding of the `krelinga/video-info` service core:
the admission coordinator (`CreateInfo`), the state projector
(`GetInfoStatus`, `mapRiverStateToTranscodeStatus`), the extraction worker
(`Work` of `InfoWorker`, `extractVideoInfo`) and the notification worker
(`Work` of `WebhookWorker`, `RESTVideoInfo`).

Modelling conventions:
* Postgres and the River queue engine are external collaborators; a pgx
  transaction is embedded as all-or-nothing publication of a pending state
  (rollback restores the committed state), and each fallible infrastructure
  call is driven by an explicit boolean outcome.
* `float64` fields parsed by `fmt.Sscanf "%f"` from decimal strings are
  embedded as exact rationals (the decimal strings in play are exact).
* JSON marshalling/unmarshalling of well-typed payloads is embedded as the
  identity on the structured values.
* UUIDs and job ids are `Nat`; byte slices are `List Nat`; times are `Nat`.
-/

set_option linter.dupNamespace false

namespace VideoInfo

abbrev Uuid := Nat
abbrev JobId := Nat

/-- Type `virest.InfoStatus`: the client-visible coarse status enum. -/
inductive InfoStatus where
  | pending
  | running
  | completed
  | failed
  deriving DecidableEq

/-- Type `internal.InfoJobResult`: duration plus ordered chapter durations. -/
structure InfoJobResult where
  durationSeconds : ℚ
  chapterDurationsSeconds : List ℚ
  deriving DecidableEq

/-- Type `virest.VideoInfo`: the REST projection of an `InfoJobResult`. -/
structure VideoInfo where
  totalDurationSeconds : ℚ
  chapterDurationsSeconds : List ℚ
  deriving DecidableEq

/-- Type `internal.InfoJobStatus`: the recorded job outcome; both fields are
Go pointers, hence `Option`. -/
structure InfoJobStatus where
  errMsg : Option String := none
  result : Option InfoJobResult := none
  deriving DecidableEq

/-- Method `(*internal.InfoJobResult).RESTVideoInfo`: the receiver is a Go pointer,
so the embedding takes an `Option`; the `none` branch is the source's
explicit nil-receiver guard (`if r == nil { return nil }`). -/
def RESTVideoInfo (r : Option InfoJobResult) : Option VideoInfo :=
  match r with
  | none => none
  | some x => some { totalDurationSeconds := x.durationSeconds,
                     chapterDurationsSeconds := x.chapterDurationsSeconds }

/-- Type `internal.InfoJobArgs`: the River payload of an extraction job. -/
structure InfoJobArgs where
  uuid : Uuid
  path : String
  webhookURI : Option String := none
  webhookToken : List Nat := []
  deriving DecidableEq

/-- Type `internal.WebhookJobArgs`: the River payload of a notification job. -/
structure WebhookJobArgs where
  uri : String
  token : List Nat
  uuid : Uuid
  status : Option InfoJobStatus
  deriving DecidableEq

/-- Type `main.WebhookPayload`: the JSON body POSTed to the webhook URI. -/
structure WebhookPayload where
  token : List Nat
  uuid : Uuid
  result : Option VideoInfo := none
  errMsg : Option String := none
  deriving DecidableEq

/-- Payload construction of `(*WebhookWorker).Work`: the fields set before
the HTTP POST is attempted.  `job.Args.Status` is a pointer, so `Option`;
when present, its `Result` pointer flows through `RESTVideoInfo`. -/
def buildWebhookPayload (args : WebhookJobArgs) : WebhookPayload :=
  let payload : WebhookPayload := { token := args.token, uuid := args.uuid }
  match args.status with
  | none => payload
  | some st => { payload with result := RESTVideoInfo st.result,
                              errMsg := st.errMsg }

/-! ### River job state and the projection to `InfoStatus`

`rivertype.JobState` is a string type in Go; the eight named constants
below are its recognized values. -/

def jobStateAvailable : String := "available"
def jobStateCancelled : String := "cancelled"
def jobStateCompleted : String := "completed"
def jobStateDiscarded : String := "discarded"
def jobStatePending : String := "pending"
def jobStateRetryable : String := "retryable"
def jobStateRunning : String := "running"
def jobStateScheduled : String := "scheduled"

/-- Function `main.mapRiverStateToTranscodeStatus`: the switch over
`rivertype.JobState` with its `default: return virest.Pending`. -/
def mapRiverStateToTranscodeStatus (state : String) : InfoStatus :=
  if state = jobStateAvailable ∨ state = jobStateScheduled ∨
     state = jobStateRetryable ∨ state = jobStatePending then
    InfoStatus.pending
  else if state = jobStateRunning then
    InfoStatus.running
  else if state = jobStateCompleted then
    InfoStatus.completed
  else if state = jobStateDiscarded ∨ state = jobStateCancelled then
    InfoStatus.failed
  else
    InfoStatus.pending

/-- Type `rivertype.JobRow` restricted to the fields the service reads: encoded
args (kept structured), state, recorded output (kept structured; `none`
embeds `len(job.Output()) == 0`), the engine's attempt errors, creation
and finalization times. -/
structure RiverJob where
  id : JobId
  args : InfoJobArgs
  state : String
  output : Option InfoJobStatus := none
  errors : List String := []
  createdAt : Nat := 0
  finalizedAt : Option Nat := none
  deriving DecidableEq

/-- The durable store: the `uuid_job_mapping` table, the River job table
and the queued webhook jobs, plus the id the next River insert will use. -/
structure ServerState where
  dedup : List (Uuid × JobId) := []
  jobs : List RiverJob := []
  webhookJobs : List WebhookJobArgs := []
  nextJobId : JobId := 0
  deriving DecidableEq

/-- Query `SELECT river_job_id FROM uuid_job_mapping WHERE uuid = $1`. -/
def lookupDedup (s : ServerState) (u : Uuid) : Option JobId :=
  (s.dedup.find? (fun p => p.1 = u)).map Prod.snd

/-- Operation `riverClient.JobGet`: fetch a job row by id. -/
def jobGet (s : ServerState) (id : JobId) : Option RiverJob :=
  s.jobs.find? (fun j => j.id = id)

/-! ### Admission coordinator: `(*Server).CreateInfo` -/

/-- The request body of `POST /info` (`virest.CreateInfoRequestObject`). -/
structure CreateInfoBody where
  uuid : Uuid
  videoPath : String
  webhookUri : Option String := none
  webhookToken : List Nat := []
  deriving DecidableEq

/-- Type `virest.CreateInfoResponseObject`: 201 / 400 / 409 / 500. -/
inductive CreateInfoResponse where
  | created (uuid : Uuid) (status : InfoStatus) (videoPath : String)
      (createdAt updatedAt : Nat)
  | badRequest (code msg : String)
  | conflict (code msg : String)
  | internalErr (code msg : String)
  deriving DecidableEq

/-- The transaction body of `CreateInfo` (lines 49–98): a dedup lookup, a
River job insert and a mapping insert, published atomically at `Commit`.

`snapshot` is the committed data the transaction's `SELECT` observes (under
read committed it may predate concurrent commits); `committed` is the
durable state the commit publishes against.

Modelled from the spec: the `uuid_job_mapping` schema is not under `src/`;
per the spec the Dedup Index has "at most one record per UUID" enforced by
"the Dedup Index's uniqueness constraint at the storage layer", so the
mapping `INSERT` fails when the committed state already holds the UUID,
and the source maps that insert error to a 500 `INTERNAL_ERROR`. -/
def createInfoTx (committed snapshot : ServerState) (body : CreateInfoBody)
    (now : Nat) : CreateInfoResponse × ServerState :=
  match lookupDedup snapshot body.uuid with
  | some _ =>
      (CreateInfoResponse.conflict "DUPLICATE_UUID"
        ("An info job with UUID " ++ toString body.uuid ++ " already exists"),
       committed)
  | none =>
      let jobArgs : InfoJobArgs :=
        { uuid := body.uuid, path := body.videoPath,
          webhookURI := body.webhookUri, webhookToken := body.webhookToken }
      let jid := committed.nextJobId
      if (lookupDedup committed body.uuid).isSome then
        -- uniqueness-constraint violation on the mapping INSERT
        (CreateInfoResponse.internalErr "INTERNAL_ERROR"
          "failed to insert uuid mapping", committed)
      else
        let job : RiverJob :=
          { id := jid, args := jobArgs, state := jobStateAvailable,
            createdAt := now }
        (CreateInfoResponse.created body.uuid InfoStatus.pending
           body.videoPath now now,
         { committed with
             jobs := committed.jobs ++ [job],
             dedup := committed.dedup ++ [(body.uuid, jid)],
             nextJobId := jid + 1 })

/-- Handler `(*Server).CreateInfo`: nil-body check, then the admission transaction
(run here without a concurrent writer, so the snapshot is the committed
state). -/
def createInfo (s : ServerState) (body : Option CreateInfoBody) (now : Nat) :
    CreateInfoResponse × ServerState :=
  match body with
  | none =>
      (CreateInfoResponse.badRequest "INVALID_REQUEST"
        "Request body is required", s)
  | some b => createInfoTx s s b now

/-- Two admissions with the same durable store: the first runs to commit,
then the second runs.  `overlap = true` embeds the racing schedule in which
the second transaction's dedup `SELECT` executed before the first commit
(its snapshot is the initial state); `overlap = false` is the sequential
schedule. -/
def admissionRace (s : ServerState) (b1 b2 : CreateInfoBody) (t1 t2 : Nat)
    (overlap : Bool) :
    CreateInfoResponse × CreateInfoResponse × ServerState :=
  let r1 := createInfoTx s s b1 t1
  let snap2 := if overlap then s else r1.2
  let r2 := createInfoTx r1.2 snap2 b2 t2
  (r1.1, r2.1, r2.2)

/-! ### State projector: `(*Server).GetInfoStatus` -/

/-- The 200 body of `GET /info/{uuid}` (`virest.InfoJob`). -/
structure InfoJobView where
  uuid : Uuid
  status : InfoStatus
  videoPath : String
  result : Option VideoInfo
  errMsg : Option String
  createdAt : Nat
  updatedAt : Nat
  deriving DecidableEq

/-- Type `virest.GetInfoStatusResponseObject`: 200 / 404 / 500. -/
inductive GetStatusResponse where
  | ok (view : InfoJobView)
  | notFound (code msg : String)
  deriving DecidableEq

/-- Handler `(*Server).GetInfoStatus`: resolve the UUID through the dedup mapping,
fetch the job row, decode args and recorded output, project the state and
choose the error text.  Infrastructure/decoding failures (the 500 branches)
cannot occur on a well-typed store, so the embedding has no 500 arm. -/
def getInfoStatus (s : ServerState) (u : Uuid) : GetStatusResponse :=
  match lookupDedup s u with
  | none =>
      GetStatusResponse.notFound "NOT_FOUND"
        ("Info job with UUID " ++ toString u ++ " not found")
  | some riverJobID =>
      match jobGet s riverJobID with
      | none =>
          GetStatusResponse.notFound "NOT_FOUND"
            ("Info job with UUID " ++ toString u ++ " not found in queue")
      | some job =>
          -- len(jobOutput) == 0 leaves the zero-valued InfoJobStatus
          let jobStatus : InfoJobStatus := job.output.getD {}
          let status := mapRiverStateToTranscodeStatus job.state
          let jobError : Option String :=
            match jobStatus.errMsg with
            | some e => some e
            | none =>
                if status = InfoStatus.failed then job.errors.getLast?
                else none
          let finalTime := job.finalizedAt.getD job.createdAt
          GetStatusResponse.ok
            { uuid := u, status := status, videoPath := job.args.path,
              result := RESTVideoInfo jobStatus.result, errMsg := jobError,
              createdAt := job.createdAt, updatedAt := finalTime }

/-! ### Extraction worker: `extractVideoInfo` and `(*InfoWorker).Work` -/

/-- One entry of the ffprobe `chapters` array: decimal-string start/end. -/
structure FfprobeChapter where
  startTime : String
  endTime : String
  deriving DecidableEq

/-- The parsed ffprobe JSON the worker consumes: `format.duration` and the
chapter list. -/
structure FfprobeOutput where
  durationStr : String
  chapters : List FfprobeChapter
  deriving DecidableEq

/-- Value of a list of decimal digit characters. -/
def digitsToNat (cs : List Char) : Nat :=
  cs.foldl (fun a c => a * 10 + (c.toNat - 48)) 0

/-- Semantics of `fmt.Sscanf(s, "%f", &x)` on the decimal strings ffprobe emits:
optional sign, integer digits, optional fractional digits, nothing else.
The value is kept exact as a rational. -/
def parseDecimal (str : String) : Option ℚ :=
  let cs := str.toList
  let signVal : ℚ × List Char :=
    match cs with
    | '-' :: rest => (-1, rest)
    | '+' :: rest => (1, rest)
    | _ => (1, cs)
  let sgn := signVal.1
  let body := signVal.2
  let intPart := body.takeWhile Char.isDigit
  let afterInt := body.dropWhile Char.isDigit
  match afterInt with
  | [] =>
      if intPart.isEmpty then none
      else some (sgn * (digitsToNat intPart : ℚ))
  | '.' :: fracTail =>
      let fracPart := fracTail.takeWhile Char.isDigit
      if ¬ (fracTail.dropWhile Char.isDigit).isEmpty then none
      else if intPart.isEmpty ∧ fracPart.isEmpty then none
      else some (sgn * ((digitsToNat intPart : ℚ) +
        (digitsToNat fracPart : ℚ) / (10 : ℚ) ^ fracPart.length))
  | _ => none

/-- The chapter loop of `extractVideoInfo` (lines 240–250): parse each
chapter's start and end in probe order and record `end - start`; the first
parse failure aborts with that chapter's error. -/
def parseChapterDurations : List FfprobeChapter → Except String (List ℚ)
  | [] => Except.ok []
  | c :: rest =>
      match parseDecimal c.startTime with
      | none => Except.error "failed to parse chapter start time"
      | some startT =>
          match parseDecimal c.endTime with
          | none => Except.error "failed to parse chapter end time"
          | some endT =>
              (parseChapterDurations rest).map
                (fun tail => (endT - startT) :: tail)

/-- Function `extractVideoInfo`: the probe subprocess either fails (non-zero exit or
unrunnable: `Except.error` input, carrying the stderr text) or yields parsed
JSON (`Except.ok`; `json.Unmarshal` of well-typed output is the identity
here).  Then the duration and every chapter boundary must parse. -/
def extractVideoInfo (probe : Except String FfprobeOutput) :
    Except String InfoJobResult :=
  match probe with
  | Except.error e => Except.error ("ffprobe failed: " ++ e)
  | Except.ok po =>
      match parseDecimal po.durationStr with
      | none => Except.error "failed to parse duration"
      | some totalDuration =>
          match parseChapterDurations po.chapters with
          | Except.error e => Except.error e
          | Except.ok chs =>
              Except.ok { durationSeconds := totalDuration,
                          chapterDurationsSeconds := chs }

/-- Lines 35–43 of `Work`: build the `InfoJobStatus` from the extraction
outcome — error string on failure, result on success. -/
def workerStatusOf (outcome : Except String InfoJobResult) : InfoJobStatus :=
  match outcome with
  | Except.error e => { errMsg := some e, result := none }
  | Except.ok r => { errMsg := none, result := some r }

/-- Update the job row with the given id. -/
def updateJob (s : ServerState) (jid : JobId) (f : RiverJob → RiverJob) :
    ServerState :=
  { s with jobs := s.jobs.map (fun j => if j.id = jid then f j else j) }

/-- Operation `river.RecordOutput`: durably attach the recorded outcome to the job. -/
def recordOutput (s : ServerState) (jid : JobId) (st : InfoJobStatus) :
    ServerState :=
  updateJob s jid (fun j => { j with output := some st })

/-- Operation `river.JobCompleteTx`: set the job's state to completed and stamp its
finalization time (applied to a transaction's pending state). -/
def completeJob (s : ServerState) (jid : JobId) (t : Nat) : ServerState :=
  updateJob s jid
    (fun j => { j with state := jobStateCompleted, finalizedAt := some t })

/-- Outcomes of the fallible infrastructure calls inside `Work`, in source
order: `river.RecordOutput`, `DBPool.Begin`, `ClientFromContext ≠ nil`,
`client.InsertTx`, `river.JobCompleteTx`, `tx.Commit`. -/
structure InfraOutcome where
  recordOk : Bool := true
  beginOk : Bool := true
  clientOk : Bool := true
  insertOk : Bool := true
  completeOk : Bool := true
  commitOk : Bool := true
  deriving DecidableEq

/-- Method `(*InfoWorker).Work` (worker.go lines 156–207): record the outcome,
then — when a webhook URI is configured — run one transaction that enqueues
the `WebhookJobArgs` and completes the extraction job, publishing both at
`Commit`.  Any failed step returns the error the source wraps there and,
via the deferred `Rollback`, leaves the committed state untouched.  Every
durable state a crash can leave behind is the second component for some
`InfraOutcome`. -/
def infoWork (s : ServerState) (job : RiverJob)
    (outcome : Except String InfoJobResult) (infra : InfraOutcome)
    (now : Nat) : Except String Unit × ServerState :=
  let st := workerStatusOf outcome
  if ¬ infra.recordOk then (Except.error "failed to record output", s)
  else
    let s1 := recordOutput s job.id st
    match job.args.webhookURI with
    | none => (Except.ok (), s1)
    | some uri =>
        let webhookArgs : WebhookJobArgs :=
          { uri := uri, token := job.args.webhookToken,
            uuid := job.args.uuid, status := some st }
        if ¬ infra.beginOk then
          (Except.error "failed to begin transaction", s1)
        else if ¬ infra.clientOk then
          (Except.error "no river client in context for webhook job insertion",
           s1)
        else if ¬ infra.insertOk then
          (Except.error "failed to enqueue webhook job", s1)
        else
          -- pending state of the open transaction after InsertTx
          let pending :=
            { s1 with webhookJobs := s1.webhookJobs ++ [webhookArgs] }
          if ¬ infra.completeOk then
            (Except.error "failed to complete job in transaction", s1)
          else
            let pending2 := completeJob pending job.id now
            if ¬ infra.commitOk then
              (Except.error "failed to commit transaction", s1)
            else
              (Except.ok (), pending2)

/-- Number of queued notification jobs for a UUID. -/
def webhookCount (s : ServerState) (u : Uuid) : Nat :=
  (s.webhookJobs.filter (fun w => w.uuid = u)).length

/-- Whether the job with the given id is in the completed state. -/
def jobCompleted (s : ServerState) (jid : JobId) : Bool :=
  match jobGet s jid with
  | some j => j.state = jobStateCompleted
  | none => false

/-- Number of dedup records for a UUID. -/
def dedupCount (s : ServerState) (u : Uuid) : Nat :=
  (s.dedup.filter (fun p => p.1 = u)).length

/-- Number of committed extraction jobs whose argument carries a UUID. -/
def jobCountFor (s : ServerState) (u : Uuid) : Nat :=
  (s.jobs.filter (fun j => j.args.uuid = u)).length

/-! ### Shared lemmas -/

/-- Lemma: `find?` over an update that rewrites exactly the rows matching `jid`
and preserves ids. -/
theorem find?_update_by_id (l : List RiverJob) (jid : JobId)
    (f : RiverJob → RiverJob) (hf : ∀ j, (f j).id = j.id) :
    (l.map (fun j => if j.id = jid then f j else j)).find?
        (fun j => j.id = jid) =
      (l.find? (fun j => j.id = jid)).map f := by
  induction l with
  | nil => simp
  | cons a t ih =>
      by_cases ha : a.id = jid
      · simp [List.find?, ha, hf a]
      · simp [List.find?, ha, ih]

/-- Lemma: `jobGet` after `updateJob` at the same id applies the update to the
fetched row. -/
theorem jobGet_updateJob (s : ServerState) (jid : JobId)
    (f : RiverJob → RiverJob) (hf : ∀ j, (f j).id = j.id) :
    jobGet (updateJob s jid f) jid = (jobGet s jid).map f :=
  find?_update_by_id s.jobs jid f hf

/-- Lemma: `recordOutput` leaves the queued webhook jobs untouched. -/
theorem webhookCount_recordOutput (s : ServerState) (jid : JobId)
    (st : InfoJobStatus) (u : Uuid) :
    webhookCount (recordOutput s jid st) u = webhookCount s u := rfl

/-- Lemma: `recordOutput` does not change whether a job is completed. -/
theorem jobCompleted_recordOutput (s : ServerState) (jid : JobId)
    (st : InfoJobStatus) :
    jobCompleted (recordOutput s jid st) jid = jobCompleted s jid := by
  unfold jobCompleted recordOutput
  rw [jobGet_updateJob]
  · cases jobGet s jid <;> rfl
  · exact fun j => rfl

/-- Fetching the updated job after `recordOutput`. -/
theorem jobGet_recordOutput (s : ServerState) (jid : JobId)
    (st : InfoJobStatus) :
    jobGet (recordOutput s jid st) jid =
      (jobGet s jid).map (fun j => { j with output := some st }) := by
  unfold recordOutput
  rw [jobGet_updateJob]
  exact fun j => rfl

/-- Fetching the updated job after `completeJob`. -/
theorem jobGet_completeJob (s : ServerState) (jid : JobId) (t : Nat) :
    jobGet (completeJob s jid t) jid =
      (jobGet s jid).map
        (fun j => { j with state := jobStateCompleted,
                           finalizedAt := some t }) := by
  unfold completeJob
  rw [jobGet_updateJob]
  exact fun j => rfl

/-- Appending a webhook job does not change the job table. -/
theorem jobGet_appendWebhook (s : ServerState) (w : WebhookJobArgs)
    (jid : JobId) :
    jobGet { s with webhookJobs := s.webhookJobs ++ [w] } jid =
      jobGet s jid := rfl

/-! ### Claims -/

/-- C6: the projection from queue-engine job state to client-visible status
is a total function mapping available, scheduled, retryable and pending
states to pending; running to running; completed to completed; discarded
and cancelled to failed; and every unrecognized state to pending — it never
returns an error for any state value (it is a total Lean function into
`InfoStatus`, with no error arm). -/
theorem mapRiverState_total_projection (st : String) :
    ((st = jobStateAvailable ∨ st = jobStateScheduled ∨
        st = jobStateRetryable ∨ st = jobStatePending) →
      mapRiverStateToTranscodeStatus st = InfoStatus.pending) ∧
    (st = jobStateRunning →
      mapRiverStateToTranscodeStatus st = InfoStatus.running) ∧
    (st = jobStateCompleted →
      mapRiverStateToTranscodeStatus st = InfoStatus.completed) ∧
    ((st = jobStateDiscarded ∨ st = jobStateCancelled) →
      mapRiverStateToTranscodeStatus st = InfoStatus.failed) ∧
    (st ∉ [jobStateAvailable, jobStateScheduled, jobStateRetryable,
        jobStatePending, jobStateRunning, jobStateCompleted,
        jobStateDiscarded, jobStateCancelled] →
      mapRiverStateToTranscodeStatus st = InfoStatus.pending) := by
  refine ⟨?_, ?_, ?_, ?_, ?_⟩
  · rintro (rfl | rfl | rfl | rfl) <;> rfl
  · rintro rfl; rfl
  · rintro rfl; rfl
  · rintro (rfl | rfl) <;> rfl
  · intro h
    simp only [List.mem_cons, List.mem_singleton, not_or] at h
    obtain ⟨h1, h2, h3, h4, h5, h6, h7, h8⟩ := h
    simp [mapRiverStateToTranscodeStatus, h1, h2, h3, h4, h5, h6, h7, h8]

/-- Witness for C6 at concrete states, including an unrecognized one. -/
theorem mapRiverState_total_projection_witness :
    mapRiverStateToTranscodeStatus "running" = InfoStatus.running ∧
    mapRiverStateToTranscodeStatus "some-future-state" = InfoStatus.pending :=
  ⟨(mapRiverState_total_projection "running").2.1 rfl,
   (mapRiverState_total_projection "some-future-state").2.2.2.2 (by decide)⟩

/-- C10: for every `WebhookJobArgs`, the notification worker builds its
payload totally and nil-safely: with `Status` absent the payload carries
only the token and uuid (result and error omitted), and with
`Status.Result` absent the nil-receiver guard inside `RESTVideoInfo`
yields an absent result instead of a panic (the embedding is a total
function; the guard is the `none` branch of `RESTVideoInfo`). -/
theorem buildWebhookPayload_total_nil_safe (args : WebhookJobArgs) :
    (args.status = none →
      buildWebhookPayload args =
        { token := args.token, uuid := args.uuid,
          result := none, errMsg := none }) ∧
    (∀ st, args.status = some st →
      buildWebhookPayload args =
        { token := args.token, uuid := args.uuid,
          result := RESTVideoInfo st.result, errMsg := st.errMsg } ∧
      (st.result = none → (buildWebhookPayload args).result = none)) := by
  constructor
  · intro h
    simp [buildWebhookPayload, h]
  · intro st h
    refine ⟨by simp [buildWebhookPayload, h], ?_⟩
    intro hres
    simp [buildWebhookPayload, h, hres, RESTVideoInfo]

/-- Witness for C10: a payload with no status, and one whose status has an
absent result. -/
theorem buildWebhookPayload_total_nil_safe_witness :
    buildWebhookPayload
        { uri := "http://cb", token := [7], uuid := 3, status := none } =
      { token := [7], uuid := 3, result := none, errMsg := none } ∧
    (buildWebhookPayload
        { uri := "http://cb", token := [7], uuid := 3,
          status := some { errMsg := some "boom", result := none } }).result =
      none :=
  ⟨(buildWebhookPayload_total_nil_safe _).1 rfl,
   ((buildWebhookPayload_total_nil_safe _).2 _ rfl).2 rfl⟩

/-- C2: for every UUID already admitted (present in the dedup mapping), a
second `CreateInfo` with the same UUID — whatever its path or webhook
arguments — returns the 409 `DUPLICATE_UUID` conflict and returns the
store unchanged: no new job, no new dedup record, and the original job and
its recorded result are untouched. -/
theorem createInfo_duplicate_uuid (s : ServerState) (body : CreateInfoBody)
    (now : Nat) (jid : JobId)
    (hadmitted : lookupDedup s body.uuid = some jid) :
    createInfo s (some body) now =
      (CreateInfoResponse.conflict "DUPLICATE_UUID"
        ("An info job with UUID " ++ toString body.uuid ++ " already exists"),
       s) := by
  simp [createInfo, createInfoTx, hadmitted]

/-- Witness for C2: re-admitting UUID 5 against a store that already maps
it conflicts and changes nothing. -/
theorem createInfo_duplicate_uuid_witness :
    createInfo
        { dedup := [(5, 0)], jobs := [], webhookJobs := [], nextJobId := 1 }
        (some { uuid := 5, videoPath := "/nas/other.mkv",
                webhookUri := some "http://cb", webhookToken := [1] })
        9 =
      (CreateInfoResponse.conflict "DUPLICATE_UUID"
        ("An info job with UUID " ++ toString (5 : Nat) ++ " already exists"),
       { dedup := [(5, 0)], jobs := [], webhookJobs := [], nextJobId := 1 }) :=
  createInfo_duplicate_uuid _ _ 9 0 (by decide)

/-- C4: round-trip — a successful admission of `{uuid, path}` returns the
201 pending response, and an immediately following status query (no worker
has run, so the store is exactly the admission's commit) returns 200 —
never `NotFound` — with the same uuid and path and status pending. -/
theorem admit_then_status_roundtrip (s : ServerState) (body : CreateInfoBody)
    (now : Nat)
    (hnew : lookupDedup s body.uuid = none)
    (hfresh : jobGet s s.nextJobId = none) :
    (createInfo s (some body) now).1 =
      CreateInfoResponse.created body.uuid InfoStatus.pending
        body.videoPath now now ∧
    getInfoStatus (createInfo s (some body) now).2 body.uuid =
      GetStatusResponse.ok
        { uuid := body.uuid, status := InfoStatus.pending,
          videoPath := body.videoPath, result := none, errMsg := none,
          createdAt := now, updatedAt := now } := by
  have hfd : s.dedup.find? (fun p => p.1 = body.uuid) = none := by
    unfold lookupDedup at hnew
    exact Option.map_eq_none'.mp hnew
  have hfj : s.jobs.find? (fun j => j.id = s.nextJobId) = none := hfresh
  constructor
  · simp [createInfo, createInfoTx, hnew]
  · simp [createInfo, createInfoTx, getInfoStatus, lookupDedup, jobGet,
      hnew, hfd, hfj, List.find?_append, List.find?_cons,
      mapRiverStateToTranscodeStatus, jobStateAvailable, RESTVideoInfo]

/-- Witness for C4: admitting UUID 42 into the empty store and querying it
immediately. -/
theorem admit_then_status_roundtrip_witness :
    (createInfo {} (some { uuid := 42, videoPath := "/nas/a.mkv" }) 7).1 =
      CreateInfoResponse.created 42 InfoStatus.pending "/nas/a.mkv" 7 7 ∧
    getInfoStatus
        (createInfo {} (some { uuid := 42, videoPath := "/nas/a.mkv" }) 7).2
        42 =
      GetStatusResponse.ok
        { uuid := 42, status := InfoStatus.pending,
          videoPath := "/nas/a.mkv", result := none, errMsg := none,
          createdAt := 7, updatedAt := 7 } :=
  admit_then_status_roundtrip {} _ 7 (by decide) (by decide)

/-- C8: in the status response the error text follows the precedence of
lines 166–173: an explicit error in the recorded `JobOutcome` wins;
otherwise the engine's last recorded failure reason is used exactly when
the coarse status is failed (and the engine recorded any failure —
`getLast?` is `none` on an empty list); otherwise no error is returned. -/
theorem getInfoStatus_error_precedence (s : ServerState) (u : Uuid)
    (jid : JobId) (job : RiverJob)
    (hmap : lookupDedup s u = some jid) (hjob : jobGet s jid = some job) :
    ∃ view, getInfoStatus s u = GetStatusResponse.ok view ∧
      (∀ e, (job.output.getD {}).errMsg = some e → view.errMsg = some e) ∧
      ((job.output.getD {}).errMsg = none →
        (mapRiverStateToTranscodeStatus job.state = InfoStatus.failed →
          view.errMsg = job.errors.getLast?) ∧
        (mapRiverStateToTranscodeStatus job.state ≠ InfoStatus.failed →
          view.errMsg = none)) := by
  simp only [getInfoStatus, hmap, hjob]
  refine ⟨_, rfl, ?_, ?_⟩
  · intro e he
    simp [he]
  · intro hnone
    constructor
    · intro hfail
      simp [hnone, hfail]
    · intro hok
      simp [hnone, hok]

/-- Witness for C8: a discarded job with no recorded outcome error falls
back to the engine's last failure reason. -/
theorem getInfoStatus_error_precedence_witness :
    ∃ view,
      getInfoStatus
          { dedup := [(1, 0)],
            jobs := [{ id := 0,
                       args := { uuid := 1, path := "/nas/a.mkv" },
                       state := "discarded", output := none,
                       errors := ["probe crashed"], createdAt := 2,
                       finalizedAt := some 6 }],
            webhookJobs := [], nextJobId := 1 } 1 =
        GetStatusResponse.ok view ∧
      view.errMsg = some "probe crashed" := by
  obtain ⟨v, hv, _, hfall⟩ :=
    getInfoStatus_error_precedence
      { dedup := [(1, 0)],
        jobs := [{ id := 0, args := { uuid := 1, path := "/nas/a.mkv" },
                   state := "discarded", output := none,
                   errors := ["probe crashed"], createdAt := 2,
                   finalizedAt := some 6 }],
        webhookJobs := [], nextJobId := 1 } 1 0
      { id := 0, args := { uuid := 1, path := "/nas/a.mkv" },
        state := "discarded", output := none, errors := ["probe crashed"],
        createdAt := 2, finalizedAt := some 6 }
      (by decide) (by decide)
  exact ⟨v, hv, (hfall rfl).1 (by decide)⟩

/-- C7: every outcome the extraction worker records sets exactly one of
the error and result fields (never both, never neither); for such a job —
finalized by the engine as completed, the state the worker's nil return
produces — the projected status lies in {completed, failed} and the result
and error fields of the 200 response are mutually exclusive (and exactly
one of them is present). -/
theorem recorded_outcome_exclusive (s : ServerState) (u : Uuid)
    (jid : JobId) (job : RiverJob) (outcome : Except String InfoJobResult)
    (hmap : lookupDedup s u = some jid) (hjob : jobGet s jid = some job)
    (hout : job.output = some (workerStatusOf outcome))
    (hdone : job.state = jobStateCompleted) :
    ((workerStatusOf outcome).errMsg.isSome ↔
      ¬ (workerStatusOf outcome).result.isSome) ∧
    ∃ view, getInfoStatus s u = GetStatusResponse.ok view ∧
      (view.status = InfoStatus.completed ∨
        view.status = InfoStatus.failed) ∧
      ¬ (view.result.isSome ∧ view.errMsg.isSome) ∧
      (view.result.isSome ∨ view.errMsg.isSome) := by
  constructor
  · cases outcome <;> simp [workerStatusOf]
  · simp only [getInfoStatus, hmap, hjob]
    refine ⟨_, rfl, ?_, ?_, ?_⟩
    · left
      simp [hdone, mapRiverStateToTranscodeStatus, jobStateCompleted,
        jobStateAvailable, jobStateScheduled, jobStateRetryable,
        jobStatePending, jobStateRunning]
    · cases outcome <;>
        simp [hout, hdone, workerStatusOf, RESTVideoInfo,
          mapRiverStateToTranscodeStatus, jobStateCompleted,
          jobStateAvailable, jobStateScheduled, jobStateRetryable,
          jobStatePending, jobStateRunning]
    · cases outcome <;>
        simp [hout, hdone, workerStatusOf, RESTVideoInfo,
          mapRiverStateToTranscodeStatus, jobStateCompleted,
          jobStateAvailable, jobStateScheduled, jobStateRetryable,
          jobStatePending, jobStateRunning]

/-- Witness for C7: a completed job that recorded a failed outcome. -/
theorem recorded_outcome_exclusive_witness :
    ((workerStatusOf (Except.error "ffprobe failed: boom")).errMsg.isSome ↔
      ¬ (workerStatusOf
            (Except.error "ffprobe failed: boom")).result.isSome) ∧
    ∃ view,
      getInfoStatus
          { dedup := [(11, 0)],
            jobs := [{ id := 0,
                       args := { uuid := 11, path := "/nas/a.mkv" },
                       state := "completed",
                       output := some { errMsg := some "ffprobe failed: boom",
                                        result := none },
                       errors := [], createdAt := 2,
                       finalizedAt := some 6 }],
            webhookJobs := [], nextJobId := 1 } 11 =
        GetStatusResponse.ok view ∧
      (view.status = InfoStatus.completed ∨
        view.status = InfoStatus.failed) ∧
      ¬ (view.result.isSome ∧ view.errMsg.isSome) ∧
      (view.result.isSome ∨ view.errMsg.isSome) :=
  recorded_outcome_exclusive
    { dedup := [(11, 0)],
      jobs := [{ id := 0, args := { uuid := 11, path := "/nas/a.mkv" },
                 state := "completed",
                 output := some { errMsg := some "ffprobe failed: boom",
                                  result := none },
                 errors := [], createdAt := 2, finalizedAt := some 6 }],
      webhookJobs := [], nextJobId := 1 } 11 0
    { id := 0, args := { uuid := 11, path := "/nas/a.mkv" },
      state := "completed",
      output := some { errMsg := some "ffprobe failed: boom",
                       result := none },
      errors := [], createdAt := 2, finalizedAt := some 6 }
    (Except.error "ffprobe failed: boom")
    (by decide) (by decide) rfl rfl

/-- C5: `Work` records every probe failure as a `JobOutcome` error string
and returns success to the queue engine — when every infrastructure call
succeeds it returns `ok` for any extraction outcome, error or result, with
the outcome durably recorded on the job — and it returns an error to the
engine only when one of the infrastructure steps (recording output, or a
webhook-transaction step) failed, never because extraction failed. -/
theorem infoWork_error_policy (s : ServerState) (job : RiverJob)
    (outcome : Except String InfoJobResult) (infra : InfraOutcome)
    (now : Nat) (hjob : jobGet s job.id = some job) :
    ((infra.recordOk = true ∧ infra.beginOk = true ∧
        infra.clientOk = true ∧ infra.insertOk = true ∧
        infra.completeOk = true ∧ infra.commitOk = true) →
      (infoWork s job outcome infra now).1 = Except.ok () ∧
      ∃ j, jobGet (infoWork s job outcome infra now).2 job.id = some j ∧
        j.output = some (workerStatusOf outcome)) ∧
    (∀ e, outcome = Except.error e →
      workerStatusOf outcome = { errMsg := some e, result := none }) ∧
    (∀ m, (infoWork s job outcome infra now).1 = Except.error m →
      ¬ (infra.recordOk = true ∧ infra.beginOk = true ∧
         infra.clientOk = true ∧ infra.insertOk = true ∧
         infra.completeOk = true ∧ infra.commitOk = true)) := by
  have main : (infra.recordOk = true ∧ infra.beginOk = true ∧
      infra.clientOk = true ∧ infra.insertOk = true ∧
      infra.completeOk = true ∧ infra.commitOk = true) →
      (infoWork s job outcome infra now).1 = Except.ok () ∧
      ∃ j, jobGet (infoWork s job outcome infra now).2 job.id = some j ∧
        j.output = some (workerStatusOf outcome) := by
    rintro ⟨h1, h2, h3, h4, h5, h6⟩
    cases hw : job.args.webhookURI with
    | none =>
        have hpost : infoWork s job outcome infra now =
            (Except.ok (),
             recordOutput s job.id (workerStatusOf outcome)) := by
          simp [infoWork, h1, hw]
        refine ⟨by rw [hpost], ?_⟩
        rw [hpost]
        refine ⟨{ job with output := some (workerStatusOf outcome) },
          ?_, rfl⟩
        rw [jobGet_recordOutput, hjob]
        rfl
    | some uri =>
        have hpost : infoWork s job outcome infra now =
            (Except.ok (),
             completeJob
               { recordOutput s job.id (workerStatusOf outcome) with
                   webhookJobs :=
                     (recordOutput s job.id
                        (workerStatusOf outcome)).webhookJobs
                       ++ [{ uri := uri, token := job.args.webhookToken,
                             uuid := job.args.uuid,
                             status := some (workerStatusOf outcome) }] }
               job.id now) := by
          simp [infoWork, h1, h2, h3, h4, h5, h6, hw]
        refine ⟨by rw [hpost], ?_⟩
        rw [hpost]
        refine ⟨{ { job with output := some (workerStatusOf outcome) } with
                  state := jobStateCompleted, finalizedAt := some now },
          ?_, rfl⟩
        rw [jobGet_completeJob, jobGet_appendWebhook, jobGet_recordOutput,
          hjob]
        rfl
  refine ⟨main, ?_, ?_⟩
  · rintro e rfl
    rfl
  · intro m hm hall
    have h := (main hall).1
    rw [h] at hm
    exact Except.noConfusion hm

/-- Witness for C5: a probe failure with healthy infrastructure — `Work`
returns `ok` to the engine with the failure recorded on the job. -/
theorem infoWork_error_policy_witness :
    (infoWork
        { dedup := [(3, 0)],
          jobs := [{ id := 0, args := { uuid := 3, path := "/nas/a.mkv" },
                     state := "running", output := none, errors := [],
                     createdAt := 2, finalizedAt := none }],
          webhookJobs := [], nextJobId := 1 }
        { id := 0, args := { uuid := 3, path := "/nas/a.mkv" },
          state := "running", output := none, errors := [], createdAt := 2,
          finalizedAt := none }
        (Except.error "ffprobe failed: bad file") {} 9).1 = Except.ok () ∧
    ∃ j, jobGet
        (infoWork
          { dedup := [(3, 0)],
            jobs := [{ id := 0, args := { uuid := 3, path := "/nas/a.mkv" },
                       state := "running", output := none, errors := [],
                       createdAt := 2, finalizedAt := none }],
            webhookJobs := [], nextJobId := 1 }
          { id := 0, args := { uuid := 3, path := "/nas/a.mkv" },
            state := "running", output := none, errors := [], createdAt := 2,
            finalizedAt := none }
          (Except.error "ffprobe failed: bad file") {} 9).2 0 = some j ∧
      j.output =
        some (workerStatusOf (Except.error "ffprobe failed: bad file")) :=
  (infoWork_error_policy
    { dedup := [(3, 0)],
      jobs := [{ id := 0, args := { uuid := 3, path := "/nas/a.mkv" },
                 state := "running", output := none, errors := [],
                 createdAt := 2, finalizedAt := none }],
      webhookJobs := [], nextJobId := 1 }
    { id := 0, args := { uuid := 3, path := "/nas/a.mkv" },
      state := "running", output := none, errors := [], createdAt := 2,
      finalizedAt := none }
    (Except.error "ffprobe failed: bad file") {} 9 (by decide)).1
    ⟨rfl, rfl, rfl, rfl, rfl, rfl⟩

/-- Lemma: `completeJob` leaves the queued webhook jobs untouched. -/
theorem webhookCount_completeJob (s : ServerState) (jid : JobId) (t : Nat)
    (u : Uuid) : webhookCount (completeJob s jid t) u = webhookCount s u :=
  rfl

/-- Replacing the webhook queue does not change job completion. -/
theorem jobCompleted_setWebhooks (s : ServerState) (l : List WebhookJobArgs)
    (jid : JobId) :
    jobCompleted { s with webhookJobs := l } jid = jobCompleted s jid := rfl

/-- C1: with a webhook URI configured, the completion hand-off of `Work`
is atomic.  Every durable state an invocation can leave behind — the
second component of `infoWork` under some `InfraOutcome`, which ranges
over all crash/rollback points since an uncommitted transaction is
discarded — either shows the commit (exactly one queued notification job
carrying the outcome snapshot, and the extraction job completed, in which
case `Work` returned nil so the engine will not redeliver) or shows
neither the notification nor the completion. -/
theorem infoWork_webhook_atomic (s : ServerState) (job : RiverJob)
    (outcome : Except String InfoJobResult) (infra : InfraOutcome)
    (now : Nat) (uri : String)
    (huri : job.args.webhookURI = some uri)
    (hjob : jobGet s job.id = some job)
    (hnotdone : job.state ≠ jobStateCompleted)
    (hcount : webhookCount s job.args.uuid = 0) :
    (webhookCount (infoWork s job outcome infra now).2 job.args.uuid = 1 ∧
       jobCompleted (infoWork s job outcome infra now).2 job.id = true ∧
       (infoWork s job outcome infra now).1 = Except.ok () ∧
       (infoWork s job outcome infra now).2.webhookJobs =
         s.webhookJobs ++
           [{ uri := uri, token := job.args.webhookToken,
              uuid := job.args.uuid,
              status := some (workerStatusOf outcome) }]) ∨
    (webhookCount (infoWork s job outcome infra now).2 job.args.uuid = 0 ∧
       jobCompleted (infoWork s job outcome infra now).2 job.id = false) := by
  have hdone0 : jobCompleted s job.id = false := by
    simp [jobCompleted, hjob, hnotdone]
  have hdone1 : jobCompleted (recordOutput s job.id (workerStatusOf outcome))
      job.id = false := by
    rw [jobCompleted_recordOutput]
    exact hdone0
  have hcount1 : webhookCount (recordOutput s job.id (workerStatusOf outcome))
      job.args.uuid = 0 := by
    rw [webhookCount_recordOutput]
    exact hcount
  rcases infra with ⟨r, b, c, i, co, cm⟩
  cases r <;> cases b <;> cases c <;> cases i <;> cases co <;> cases cm <;>
    simp only [infoWork, huri, Bool.not_true, Bool.not_false,
      not_true_eq_false, not_false_eq_true, if_true, if_false, ite_true,
      ite_false] <;>
    first
      | exact Or.inr ⟨hcount, hdone0⟩
      | exact Or.inr ⟨hcount1, hdone1⟩
      | (refine Or.inl ⟨?_, ?_, ?_, ?_⟩
         · rw [webhookCount_completeJob]
           simp [webhookCount, List.filter_append] at hcount ⊢
           exact hcount
         · simp [jobCompleted, jobGet_completeJob, jobGet_appendWebhook,
             jobGet_recordOutput, hjob, jobStateCompleted]
         · exact trivial
         · rfl)

/-- Witness for C1: a webhook-configured job run with healthy
infrastructure commits both the notification and the completion. -/
theorem infoWork_webhook_atomic_witness :
    webhookCount
      (infoWork
        { dedup := [(3, 0)],
          jobs := [{ id := 0,
                     args := { uuid := 3, path := "/nas/a.mkv",
                               webhookURI := some "http://cb",
                               webhookToken := [9] },
                     state := "running", output := none, errors := [],
                     createdAt := 2, finalizedAt := none }],
          webhookJobs := [], nextJobId := 1 }
        { id := 0,
          args := { uuid := 3, path := "/nas/a.mkv",
                    webhookURI := some "http://cb", webhookToken := [9] },
          state := "running", output := none, errors := [], createdAt := 2,
          finalizedAt := none }
        (Except.error "ffprobe failed: bad file") {} 9).2 3 = 1 ∧
    jobCompleted
      (infoWork
        { dedup := [(3, 0)],
          jobs := [{ id := 0,
                     args := { uuid := 3, path := "/nas/a.mkv",
                               webhookURI := some "http://cb",
                               webhookToken := [9] },
                     state := "running", output := none, errors := [],
                     createdAt := 2, finalizedAt := none }],
          webhookJobs := [], nextJobId := 1 }
        { id := 0,
          args := { uuid := 3, path := "/nas/a.mkv",
                    webhookURI := some "http://cb", webhookToken := [9] },
          state := "running", output := none, errors := [], createdAt := 2,
          finalizedAt := none }
        (Except.error "ffprobe failed: bad file") {} 9).2 0 = true := by
  rcases infoWork_webhook_atomic
      { dedup := [(3, 0)],
        jobs := [{ id := 0,
                   args := { uuid := 3, path := "/nas/a.mkv",
                             webhookURI := some "http://cb",
                             webhookToken := [9] },
                   state := "running", output := none, errors := [],
                   createdAt := 2, finalizedAt := none }],
        webhookJobs := [], nextJobId := 1 }
      { id := 0,
        args := { uuid := 3, path := "/nas/a.mkv",
                  webhookURI := some "http://cb", webhookToken := [9] },
        state := "running", output := none, errors := [], createdAt := 2,
        finalizedAt := none }
      (Except.error "ffprobe failed: bad file") {} 9 "http://cb"
      rfl (by decide) (by decide) rfl with h | h
  · exact ⟨h.1, h.2.1⟩
  · exact absurd h.1 (by decide)

/-- Counterexample to C3 as stated: in the racing schedule (both dedup
checks precede either commit) the first admission returns 201 but the
loser hits the mapping INSERT's uniqueness violation, which `CreateInfo`
maps to a 500 `INTERNAL_ERROR` — not to 409 `DUPLICATE_UUID` — because no
branch of the source inspects the insert error for a constraint
violation. -/
theorem admissionRace_counterexample :
    (admissionRace {} { uuid := 0, videoPath := "/nas/a.mkv" }
        { uuid := 0, videoPath := "/nas/b.mkv" } 1 2 true).1 =
      CreateInfoResponse.created 0 InfoStatus.pending "/nas/a.mkv" 1 1 ∧
    (admissionRace {} { uuid := 0, videoPath := "/nas/a.mkv" }
        { uuid := 0, videoPath := "/nas/b.mkv" } 1 2 true).2.1 =
      CreateInfoResponse.internalErr "INTERNAL_ERROR"
        "failed to insert uuid mapping" := by
  exact ⟨rfl, rfl⟩

/-- C3 amended: of two admissions racing on one UUID, exactly one commits
and returns 201, and the final store holds exactly one job and one dedup
record for that UUID — but the loser's response depends on the schedule:
409 `DUPLICATE_UUID` when its dedup check ran after the winner's commit,
and 500 `INTERNAL_ERROR` from the uniqueness-constraint violation when
the transactions overlapped. -/
theorem admissionRace_single_commit (s : ServerState)
    (b1 b2 : CreateInfoBody) (t1 t2 : Nat) (overlap : Bool)
    (hu : b2.uuid = b1.uuid)
    (hnew : lookupDedup s b1.uuid = none)
    (hd0 : dedupCount s b1.uuid = 0)
    (hj0 : jobCountFor s b1.uuid = 0) :
    (admissionRace s b1 b2 t1 t2 overlap).1 =
      CreateInfoResponse.created b1.uuid InfoStatus.pending
        b1.videoPath t1 t1 ∧
    (overlap = false →
      (admissionRace s b1 b2 t1 t2 overlap).2.1 =
        CreateInfoResponse.conflict "DUPLICATE_UUID"
          ("An info job with UUID " ++ toString b1.uuid ++
            " already exists")) ∧
    (overlap = true →
      (admissionRace s b1 b2 t1 t2 overlap).2.1 =
        CreateInfoResponse.internalErr "INTERNAL_ERROR"
          "failed to insert uuid mapping") ∧
    dedupCount (admissionRace s b1 b2 t1 t2 overlap).2.2 b1.uuid = 1 ∧
    jobCountFor (admissionRace s b1 b2 t1 t2 overlap).2.2 b1.uuid = 1 := by
  have hfind : s.dedup.find? (fun p => p.1 = b1.uuid) = none := by
    unfold lookupDedup at hnew
    exact Option.map_eq_none'.mp hnew
  have hd0' : (s.dedup.filter (fun p => p.1 = b1.uuid)).length = 0 := hd0
  have hj0' : (s.jobs.filter (fun j => j.args.uuid = b1.uuid)).length = 0 :=
    hj0
  cases overlap <;>
    simp [admissionRace, createInfoTx, lookupDedup, dedupCount, jobCountFor,
      hu, hfind, hd0', hj0', List.find?_append, List.filter_append]

/-- Witness for the amended C3, in both schedules, from the empty store. -/
theorem admissionRace_single_commit_witness :
    ((admissionRace {} { uuid := 4, videoPath := "/nas/a.mkv" }
        { uuid := 4, videoPath := "/nas/b.mkv" } 1 2 true).1 =
      CreateInfoResponse.created 4 InfoStatus.pending "/nas/a.mkv" 1 1 ∧
     dedupCount (admissionRace {} { uuid := 4, videoPath := "/nas/a.mkv" }
        { uuid := 4, videoPath := "/nas/b.mkv" } 1 2 true).2.2 4 = 1) ∧
    (admissionRace {} { uuid := 4, videoPath := "/nas/a.mkv" }
        { uuid := 4, videoPath := "/nas/b.mkv" } 1 2 false).2.1 =
      CreateInfoResponse.conflict "DUPLICATE_UUID"
        ("An info job with UUID " ++ toString (4 : Nat) ++
          " already exists") := by
  refine ⟨⟨?_, ?_⟩, ?_⟩
  · exact (admissionRace_single_commit {} _ _ 1 2 true rfl (by decide)
      (by decide) (by decide)).1
  · exact (admissionRace_single_commit {} _ _ 1 2 true rfl (by decide)
      (by decide) (by decide)).2.2.2.1
  · exact (admissionRace_single_commit {} _ _ 1 2 false rfl (by decide)
      (by decide) (by decide)).2.1 rfl

/-- The chapter loop records exactly `end − start` per chapter, in probe
order. -/
theorem parseChapterDurations_spec (cs : List FfprobeChapter) (ds : List ℚ)
    (h : parseChapterDurations cs = Except.ok ds) :
    ds.length = cs.length ∧
    ∀ i, i < cs.length →
      ∃ c startT endT, cs[i]? = some c ∧
        parseDecimal c.startTime = some startT ∧
        parseDecimal c.endTime = some endT ∧
        ds[i]? = some (endT - startT) := by
  induction cs generalizing ds with
  | nil =>
      simp only [parseChapterDurations] at h
      injection h with h
      subst h
      exact ⟨rfl, fun i hi => absurd hi (by simp)⟩
  | cons c rest ih =>
      simp only [parseChapterDurations] at h
      cases hst : parseDecimal c.startTime with
      | none => rw [hst] at h; cases h
      | some startT =>
          rw [hst] at h
          cases hen : parseDecimal c.endTime with
          | none => rw [hen] at h; cases h
          | some endT =>
              rw [hen] at h
              cases hrec : parseChapterDurations rest with
              | error e => rw [hrec] at h; cases h
              | ok tail =>
                  rw [hrec] at h
                  injection h with h
                  subst h
                  obtain ⟨hlen, hspec⟩ := ih tail hrec
                  refine ⟨by simp [hlen], ?_⟩
                  intro i hi
                  cases i with
                  | zero =>
                      exact ⟨c, startT, endT, by simp, hst, hen, by simp⟩
                  | succ n =>
                      obtain ⟨c', s', e', h1, h2, h3, h4⟩ :=
                        hspec n (by simpa using hi)
                      exact ⟨c', s', e', by simpa using h1, h2, h3,
                        by simpa using h4⟩

/-- C9: whenever `extractVideoInfo` succeeds, the recorded duration is the
parsed probe duration and each recorded chapter duration is that chapter's
parsed end time minus its parsed start time, in the probe's chapter order;
the witness instantiates the scenario duration "125.430000" with one
chapter ["0.000000", "60.000000"] ⇒ {duration 125.43, chapters [60]}. -/
theorem extractVideoInfo_chapter_durations (po : FfprobeOutput)
    (r : InfoJobResult)
    (h : extractVideoInfo (Except.ok po) = Except.ok r) :
    parseDecimal po.durationStr = some r.durationSeconds ∧
    r.chapterDurationsSeconds.length = po.chapters.length ∧
    ∀ i, i < po.chapters.length →
      ∃ c startT endT, po.chapters[i]? = some c ∧
        parseDecimal c.startTime = some startT ∧
        parseDecimal c.endTime = some endT ∧
        r.chapterDurationsSeconds[i]? = some (endT - startT) := by
  simp only [extractVideoInfo] at h
  cases hd : parseDecimal po.durationStr with
  | none => rw [hd] at h; cases h
  | some d =>
      rw [hd] at h
      cases hc : parseChapterDurations po.chapters with
      | error e => rw [hc] at h; cases h
      | ok chs =>
          rw [hc] at h
          injection h with h
          subst h
          obtain ⟨hlen, hspec⟩ := parseChapterDurations_spec _ _ hc
          exact ⟨rfl, hlen, hspec⟩

/-- Witness for C9: the spec's scenario input. -/
theorem extractVideoInfo_chapter_durations_witness :
    extractVideoInfo
        (Except.ok
          { durationStr := "125.430000",
            chapters := [{ startTime := "0.000000",
                           endTime := "60.000000" }] }) =
      Except.ok
        { durationSeconds := 12543 / 100,
          chapterDurationsSeconds := [(60 : ℚ)] } ∧
    ∃ c startT endT,
      ([{ startTime := "0.000000", endTime := "60.000000" }] :
          List FfprobeChapter)[0]? = some c ∧
      parseDecimal c.startTime = some startT ∧
      parseDecimal c.endTime = some endT ∧
      ([(60 : ℚ)] : List ℚ)[0]? = some (endT - startT) := by
  have hconcrete : extractVideoInfo
      (Except.ok
        { durationStr := "125.430000",
          chapters := [{ startTime := "0.000000",
                         endTime := "60.000000" }] }) =
      Except.ok
        { durationSeconds := 12543 / 100,
          chapterDurationsSeconds := [(60 : ℚ)] } := by
    simp [extractVideoInfo, parseDecimal, parseChapterDurations,
      digitsToNat, Except.map]
    norm_num
  exact ⟨hconcrete,
    (extractVideoInfo_chapter_durations _ _ hconcrete).2.2 0 (by decide)⟩

end VideoInfo
